import Mathlib

/-!
Verification of the task time-budget / session-scheduling engine of the
TimeforLove repository, as implemented in
`src/src/components/EnvironmentCard.tsx`.

Shallow embedding conventions:
* Calendar dates carry no time of day in the program (they come from
  `YYYY-MM-DD` form fields, parsed to UTC midnights), so a date is modelled
  as an integer day number counted from 1970-01-01 (a Thursday).  The
  source's `Math.ceil((end - start) / (1000*3600*24))` is then exactly
  `end - start` in day numbers.
* Hours are exact rationals (`ℚ`); the source's floating-point literal
  `0.8` denotes the rational `4/5`.
* The interpolated number rendering inside warning strings (`toFixed(1)`
  and default number printing) is modelled by concrete rational-rendering
  functions; the surrounding string templates are taken verbatim from the
  source.
-/

namespace TimeforLove

/-- Weekday index of a day number, matching JavaScript `Date.prototype.getDay`
(0 = Sunday … 6 = Saturday).  Day 0 is 1970-01-01, a Thursday (index 4). -/
def dayOfWeek (d : ℤ) : ℕ := ((d + 4) % 7).toNat

/-- The user capacity profile read by the engine (`userSettings` in the
source): the set of weekday indices available for work and the daily
available hours. -/
structure UserSettings where
  workDays : List ℕ
  dailyAvailableHours : ℚ
deriving DecidableEq, Repr

/-- The record returned by `calculateSessionBasedTime` in the source:
`{ totalTime, sessions, frequency, feasible, warning }`. -/
structure SessionPlan where
  totalTime : ℚ
  sessions : ℕ
  frequency : String
  feasible : Bool
  warning : String
deriving DecidableEq, Repr

/-- Rendering of a rational with one decimal digit, standing in for
JavaScript `Number.prototype.toFixed(1)` inside warning strings. -/
def toFixed1 (q : ℚ) : String :=
  toString (⌊q * 10 + 1 / 2⌋ / 10) ++ "." ++ toString ((⌊q * 10 + 1 / 2⌋ % 10).natAbs)

/-- Default rendering of a number inside a template string
(JavaScript number-to-string). -/
def formatNum (q : ℚ) : String :=
  if q.den = 1 then toString q.num else toString q.num ++ "/" ++ toString q.den

/-- The work-day counting loop of `calculateSessionBasedTime`
(EnvironmentCard.tsx lines 395-405): walk every calendar day from
`startDate` to `endDate` inclusive and count those whose weekday index is in
`workDays`.  An empty count results when `endDate < startDate` (the loop
body never runs), exactly as in the source. -/
def countWorkDays (workDays : List ℕ) (startDate endDate : ℤ) : ℕ :=
  ((List.range (endDate - startDate + 1).toNat).filter
    (fun i : ℕ => decide (dayOfWeek (startDate + (i : ℤ)) ∈ workDays))).length

/-- `calculateSessionBasedTime` (EnvironmentCard.tsx lines 376-432), on the
engine inputs: start date, deadline, session duration in hours, and the
capacity profile.  The guard clauses appear in source order:
invalid range, neutral plan for non-positive session duration, no work
days, session duration over the daily cap, total time over the 80%
capacity margin, and finally the feasible plan. -/
def calculateSessionBasedTime (startDate endDate : ℤ) (sessionDuration : ℚ)
    (userSettings : UserSettings) : SessionPlan :=
  if endDate - startDate ≤ 0 then
    ⟨0, 0, "Invalid date range", false, "Deadline must be after start date"⟩
  else if sessionDuration ≤ 0 then
    ⟨0, 0, "", true, ""⟩
  else if countWorkDays userSettings.workDays startDate endDate = 0 then
    ⟨0, 0, "No work days", false, "No work days in the selected range"⟩
  else if sessionDuration > userSettings.dailyAvailableHours then
    ⟨sessionDuration * (countWorkDays userSettings.workDays startDate endDate : ℚ),
      countWorkDays userSettings.workDays startDate endDate, "Daily", false,
      "Session duration (" ++ toFixed1 sessionDuration ++
        "h) exceeds daily capacity (" ++ formatNum userSettings.dailyAvailableHours ++ "h)"⟩
  else if sessionDuration * (countWorkDays userSettings.workDays startDate endDate : ℚ) >
      ((countWorkDays userSettings.workDays startDate endDate : ℚ) *
        userSettings.dailyAvailableHours) * (0.8 : ℚ) then
    ⟨sessionDuration * (countWorkDays userSettings.workDays startDate endDate : ℚ),
      countWorkDays userSettings.workDays startDate endDate, "Daily", false,
      "Total time (" ++
        toFixed1 (sessionDuration *
          (countWorkDays userSettings.workDays startDate endDate : ℚ)) ++
        "h) may exceed available capacity"⟩
  else
    ⟨sessionDuration * (countWorkDays userSettings.workDays startDate endDate : ℚ),
      countWorkDays userSettings.workDays startDate endDate, "Daily", true, ""⟩

/-- `getUrgencyColor` (EnvironmentCard.tsx lines 548-557).  Instants are in
milliseconds since the epoch; the source computes
`Math.ceil((deadline - now) / (1000*60*60*24))` and picks the first
matching colour. -/
def getUrgencyColor (deadlineMs nowMs : ℤ) : String :=
  if ⌈((deadlineMs - nowMs : ℤ) : ℚ) / (1000 * 60 * 60 * 24)⌉ ≤ 1 then "text-red-600"
  else if ⌈((deadlineMs - nowMs : ℤ) : ℚ) / (1000 * 60 * 60 * 24)⌉ ≤ 3 then "text-orange-600"
  else if ⌈((deadlineMs - nowMs : ℤ) : ℚ) / (1000 * 60 * 60 * 24)⌉ ≤ 7 then "text-yellow-600"
  else "text-green-600"

/-- The urgency tiers named by the specification. -/
inductive UrgencyTier
  | critical
  | high
  | medium
  | low
deriving DecidableEq, Repr

/-- Modelled from the spec (§4.3 Urgency Classifier): the ordered tier table,
first match wins: `daysUntil ≤ 1 → critical`, `≤ 3 → high`, `≤ 7 → medium`,
else `low`. -/
def classifyUrgencySpec (daysUntil : ℤ) : UrgencyTier :=
  if daysUntil ≤ 1 then UrgencyTier.critical
  else if daysUntil ≤ 3 then UrgencyTier.high
  else if daysUntil ≤ 7 then UrgencyTier.medium
  else UrgencyTier.low

/-- The colour the source uses to render each urgency tier. -/
def tierColor : UrgencyTier → String
  | UrgencyTier.critical => "text-red-600"
  | UrgencyTier.high => "text-orange-600"
  | UrgencyTier.medium => "text-yellow-600"
  | UrgencyTier.low => "text-green-600"

/-- The deadline type of a task draft (`'hard' | 'soft' | 'none'`). -/
inductive DeadlineType
  | hard
  | soft
  | noType
deriving DecidableEq, Repr

/-- The verdict record of the deadline-conflict check.  In the early-return
branch the source produces the literal `{ hasConflict: false }`, i.e. the
`reason` and `recommendedFrequency` fields are absent; absent fields are
modelled as `Option.none`. -/
structure ConflictVerdict where
  hasConflict : Bool
  reason : Option String
  recommendedFrequency : Option String
deriving DecidableEq, Repr

/-- The slice of the edit-form state that the deadline-conflict check reads:
`deadline` (absent or a date string, where the empty string is also falsy in
the source's `!editFormData.deadline` test), `deadlineType`, the estimated
hours/minutes, and the start date. -/
structure EditForm where
  deadline : Option String
  deadlineType : DeadlineType
  estimatedHours : ℚ
  estimatedMinutes : ℚ
  startDate : Option String
deriving DecidableEq, Repr

/-- The argument record the conflict check hands to
`calculateSessionDistribution`. -/
structure TaskForCheck where
  deadline : String
  estimatedHours : ℚ
  deadlineType : DeadlineType
  startDate : Option String
deriving DecidableEq, Repr

/-- `deadlineConflict` (EnvironmentCard.tsx lines 532-546).  The imported
`calculateSessionDistribution` lives outside the given sources, so it is a
parameter `dist`; the claim under study only concerns the early-return
branch, which is entirely in the source: when the deadline is falsy or the
deadline type is `'none'`, the memo returns `{ hasConflict: false }` without
invoking `dist` and without reading `userSettings`. -/
def deadlineConflict (dist : TaskForCheck → UserSettings → ConflictVerdict)
    (form : EditForm) (userSettings : UserSettings) : ConflictVerdict :=
  if form.deadline = Option.none ∨ form.deadline = some "" ∨
      form.deadlineType = DeadlineType.noType then
    ⟨false, Option.none, Option.none⟩
  else
    dist
      { deadline := form.deadline.getD ""
        estimatedHours := form.estimatedHours + form.estimatedMinutes / 60
        deadlineType := form.deadlineType
        startDate := form.startDate }
      userSettings

/-! ## Helper lemmas -/

/-- A string with a non-empty left part of an append is non-empty. -/
lemma append_left_ne_empty {s : String} (t : String) (h : s ≠ "") : s ++ t ≠ "" := by
  intro hc
  apply h
  have hlen := congrArg String.length hc
  rw [String.length_append] at hlen
  have hs : s.length = 0 := by
    have : s.length + t.length = 0 := hlen
    omega
  cases s with
  | mk data =>
    cases data with
    | nil => rfl
    | cons c cs => simp [String.length] at hs

/-- An empty work-day list yields an empty work-day count on any range. -/
lemma countWorkDays_nil (a b : ℤ) : countWorkDays [] a b = 0 := by
  simp [countWorkDays]

/-- A filter over a `Finset.range` has the same cardinality as the filter of
the corresponding `List.range`. -/
lemma filter_range_card (q : ℕ → Prop) [DecidablePred q] (n : ℕ) :
    (Finset.filter q (Finset.range n)).card =
      ((List.range n).filter (fun i => decide (q i))).length := by
  induction n with
  | zero => simp
  | succ m ih =>
    rw [Finset.range_succ, Finset.filter_insert, List.range_succ, List.filter_append,
      List.length_append]
    by_cases hq : q m
    · rw [if_pos hq, Finset.card_insert_of_not_mem (by simp)]
      simp [hq, ih]
    · rw [if_neg hq]
      simp [hq, ih]

/-- The counting loop of the source computes exactly the number of calendar
days from `a` to `b` inclusive whose weekday index is in `wd`. -/
lemma countWorkDays_eq_card (wd : List ℕ) (a b : ℤ) :
    countWorkDays wd a b =
      ((Finset.Icc a b).filter (fun d => dayOfWeek d ∈ wd)).card := by
  rw [Int.Icc_eq_finset_map, Finset.filter_map, Finset.card_map, filter_range_card]
  have hn : (b + 1 - a).toNat = (b - a + 1).toNat := by omega
  rw [hn, countWorkDays]
  apply congrArg List.length
  apply List.filter_congr
  intro i _
  rfl

/-- The `totalTime` field as a single closed form: the product of session
duration and work-day count on the fully-validated path, `0` on every guard
path. -/
lemma totalTime_eval (a b : ℤ) (s : ℚ) (u : UserSettings) :
    (calculateSessionBasedTime a b s u).totalTime =
      if 0 < b - a ∧ 0 < s ∧ countWorkDays u.workDays a b ≠ 0 then
        s * (countWorkDays u.workDays a b : ℚ)
      else 0 := by
  rw [calculateSessionBasedTime]
  by_cases h1 : b - a ≤ 0
  · rw [if_pos h1, if_neg (fun hc => absurd hc.1 (by omega))]
  · rw [if_neg h1]
    by_cases h2 : s ≤ 0
    · rw [if_pos h2, if_neg (fun hc => absurd h2 hc.2.1.not_le)]
    · rw [if_neg h2]
      by_cases h3 : countWorkDays u.workDays a b = 0
      · rw [if_pos h3, if_neg (fun hc => hc.2.2 h3)]
      · have hcond : 0 < b - a ∧ 0 < s ∧ countWorkDays u.workDays a b ≠ 0 :=
          ⟨by omega, lt_of_not_le h2, h3⟩
        rw [if_neg h3, if_pos hcond]
        by_cases h4 : s > u.dailyAvailableHours
        · rw [if_pos h4]
        · rw [if_neg h4]
          by_cases h5 : s * (countWorkDays u.workDays a b : ℚ) >
              ((countWorkDays u.workDays a b : ℚ) * u.dailyAvailableHours) * (0.8 : ℚ)
          · rw [if_pos h5]
          · rw [if_neg h5]

/-! ## C4: invalid date range -/

/-- C4: whenever the whole-day difference between deadline and start is
`≤ 0`, `calculateSessionBasedTime` returns the infeasible plan labelled
`"Invalid date range"`. -/
theorem invalid_range_rejected (startDate endDate : ℤ) (s : ℚ) (u : UserSettings)
    (h : endDate - startDate ≤ 0) :
    calculateSessionBasedTime startDate endDate s u =
      ⟨0, 0, "Invalid date range", false, "Deadline must be after start date"⟩ := by
  rw [calculateSessionBasedTime, if_pos h]

/-- C4 witness: start 2024-01-02, deadline 2024-01-01. -/
theorem invalid_range_rejected_witness :
    (19723 : ℤ) - 19724 ≤ 0 ∧
      calculateSessionBasedTime 19724 19723 2 ⟨[1, 2, 3, 4, 5], 8⟩ =
        ⟨0, 0, "Invalid date range", false, "Deadline must be after start date"⟩ :=
  ⟨by norm_num, invalid_range_rejected 19724 19723 2 ⟨[1, 2, 3, 4, 5], 8⟩ (by norm_num)⟩

/-! ## C5: neutral plan for non-positive session duration -/

/-- C5 counterexample: with a reversed date range and session duration `0`,
the source returns the infeasible "Invalid date range" plan, not the neutral
feasible plan the claim demands for every input with
`sessionDurationHours ≤ 0`. -/
theorem neutral_plan_cex :
    (0 : ℚ) ≤ 0 ∧
      (calculateSessionBasedTime 19724 19723 0 ⟨[1, 2, 3, 4, 5], 8⟩).feasible = false := by
  refine ⟨le_refl 0, ?_⟩
  rw [calculateSessionBasedTime, if_pos (by norm_num : (19723 : ℤ) - 19724 ≤ 0)]

/-- C5 amended: on a valid date range (whole-day difference `> 0`), every
session duration `≤ 0` produces the neutral plan
`{feasible: true, sessionCount: 0, totalTime: 0}` with empty frequency label
and empty warning. -/
theorem neutral_plan (startDate endDate : ℤ) (s : ℚ) (u : UserSettings)
    (hr : 0 < endDate - startDate) (hs : s ≤ 0) :
    calculateSessionBasedTime startDate endDate s u = ⟨0, 0, "", true, ""⟩ := by
  rw [calculateSessionBasedTime, if_neg hr.not_le, if_pos hs]

/-- C5 witness: a week-long range with session duration `0`. -/
theorem neutral_plan_witness :
    (0 : ℤ) < 19729 - 19723 ∧ (0 : ℚ) ≤ 0 ∧
      calculateSessionBasedTime 19723 19729 0 ⟨[1, 2, 3, 4, 5], 8⟩ =
        ⟨0, 0, "", true, ""⟩ :=
  ⟨by norm_num, le_refl 0,
    neutral_plan 19723 19729 0 ⟨[1, 2, 3, 4, 5], 8⟩ (by norm_num) (le_refl 0)⟩

/-! ## C3: no work days in range -/

/-- C3 counterexample: with `workDays = ∅` the source does not always answer
`"No work days"`: a session duration of `0` yields the neutral feasible plan
(empty label), and a reversed range yields `"Invalid date range"`. -/
theorem no_work_days_cex :
    (calculateSessionBasedTime 19723 19729 0 ⟨[], 8⟩).feasible = true ∧
    (calculateSessionBasedTime 19723 19729 0 ⟨[], 8⟩).frequency ≠ "No work days" ∧
    (calculateSessionBasedTime 19724 19723 2 ⟨[], 8⟩).frequency = "Invalid date range" := by
  rw [calculateSessionBasedTime, if_neg (by norm_num : ¬((19729 : ℤ) - 19723 ≤ 0)),
    if_pos (le_refl (0 : ℚ)),
    calculateSessionBasedTime, if_pos (by norm_num : (19723 : ℤ) - 19724 ≤ 0)]
  refine ⟨rfl, ?_, rfl⟩
  decide

/-- C3 amended: on a valid date range with positive session duration, an
empty work-day set — and in general any range containing zero work-days —
produces the infeasible plan labelled `"No work days"` with its explanatory
warning, a label distinct from the invalid-range label. -/
theorem no_work_days_plan (startDate endDate : ℤ) (s : ℚ) (u : UserSettings)
    (hr : 0 < endDate - startDate) (hs : 0 < s)
    (hn : u.workDays = [] ∨ countWorkDays u.workDays startDate endDate = 0) :
    calculateSessionBasedTime startDate endDate s u =
      ⟨0, 0, "No work days", false, "No work days in the selected range"⟩ ∧
    ("No work days" : String) ≠ "Invalid date range" := by
  have hn0 : countWorkDays u.workDays startDate endDate = 0 := by
    rcases hn with h | h
    · rw [h, countWorkDays_nil]
    · exact h
  refine ⟨?_, by decide⟩
  rw [calculateSessionBasedTime, if_neg hr.not_le, if_neg hs.not_le, if_pos hn0]

/-- C3 witness: a week-long range, session duration `2`, empty work-day
set. -/
theorem no_work_days_plan_witness :
    (0 : ℤ) < 19729 - 19723 ∧ (0 : ℚ) < 2 ∧
      (calculateSessionBasedTime 19723 19729 2 ⟨[], 8⟩ =
        ⟨0, 0, "No work days", false, "No work days in the selected range"⟩ ∧
      ("No work days" : String) ≠ "Invalid date range") :=
  ⟨by norm_num, by norm_num,
    no_work_days_plan 19723 19729 2 ⟨[], 8⟩ (by norm_num) (by norm_num) (Or.inl rfl)⟩

/-! ## C2: daily cadence and work-day counting -/

/-- C2 counterexample: a valid date range with positive session duration
whose range contains no work-day gets the label `"No work days"`, not the
`"Daily"` label the claim asserts for every valid range with positive
session duration. -/
theorem daily_plan_structure_cex :
    (0 : ℤ) < 19729 - 19723 ∧ (0 : ℚ) < 2 ∧
      (calculateSessionBasedTime 19723 19729 2 ⟨[], 8⟩).frequency ≠ "Daily" := by
  refine ⟨by norm_num, by norm_num, ?_⟩
  have h0 : countWorkDays ([] : List ℕ) 19723 19729 = 0 := by decide
  rw [calculateSessionBasedTime, if_neg (by norm_num : ¬((19729 : ℤ) - 19723 ≤ 0)),
    if_neg (by norm_num : ¬((2 : ℚ) ≤ 0)), if_pos h0]
  decide

/-- C2 amended (the range must additionally contain at least one work-day;
with zero work-days the label is `"No work days"`): on a valid date range
with positive session duration and at least one work-day,
`workDaysInRange` is the number of calendar days from start to deadline
inclusive whose weekday index is in `workDays`, and the plan has one
session per work-day, label `"Daily"`, and
`totalTime = sessionDurationHours × sessionCount`; in particular Scenario A
(start 2024-01-01 = day 19723, deadline 2024-01-07 = day 19729,
workDays {1,…,5}, session 2h, daily cap 8h) gives 5 work-days, 5 sessions,
total 10h, feasible. -/
theorem daily_plan_structure :
    (∀ (startDate endDate : ℤ) (s : ℚ) (u : UserSettings),
      0 < endDate - startDate → 0 < s →
      countWorkDays u.workDays startDate endDate ≠ 0 →
      countWorkDays u.workDays startDate endDate =
        ((Finset.Icc startDate endDate).filter
          (fun d => dayOfWeek d ∈ u.workDays)).card ∧
      (calculateSessionBasedTime startDate endDate s u).sessions =
        countWorkDays u.workDays startDate endDate ∧
      (calculateSessionBasedTime startDate endDate s u).frequency = "Daily" ∧
      (calculateSessionBasedTime startDate endDate s u).totalTime =
        s * (countWorkDays u.workDays startDate endDate : ℚ)) ∧
    countWorkDays [1, 2, 3, 4, 5] 19723 19729 = 5 ∧
    calculateSessionBasedTime 19723 19729 2 ⟨[1, 2, 3, 4, 5], 8⟩ =
      ⟨10, 5, "Daily", true, ""⟩ := by
  have hc : countWorkDays [1, 2, 3, 4, 5] 19723 19729 = 5 := by decide
  refine ⟨?_, hc, ?_⟩
  · intro startDate endDate s u hr hs hn
    refine ⟨countWorkDays_eq_card _ _ _, ?_⟩
    rw [calculateSessionBasedTime, if_neg hr.not_le, if_neg hs.not_le, if_neg hn]
    split_ifs <;> exact ⟨rfl, rfl, rfl⟩
  · rw [calculateSessionBasedTime, if_neg (by norm_num : ¬((19729 : ℤ) - 19723 ≤ 0)),
      if_neg (by norm_num : ¬((2 : ℚ) ≤ 0)), if_neg (by rw [hc]; norm_num)]
    rw [if_neg (by norm_num : ¬((2 : ℚ) > 8)), if_neg (by rw [hc]; norm_num)]
    rw [hc]
    norm_num

/-- C2 witness: the general part of the theorem applied to Scenario A. -/
theorem daily_plan_structure_witness :
    (0 : ℤ) < 19729 - 19723 ∧ (0 : ℚ) < 2 ∧
    countWorkDays [1, 2, 3, 4, 5] 19723 19729 ≠ 0 ∧
    (countWorkDays [1, 2, 3, 4, 5] 19723 19729 =
      ((Finset.Icc (19723 : ℤ) 19729).filter
        (fun d => dayOfWeek d ∈ [1, 2, 3, 4, 5])).card ∧
    (calculateSessionBasedTime 19723 19729 2 ⟨[1, 2, 3, 4, 5], 8⟩).sessions =
      countWorkDays [1, 2, 3, 4, 5] 19723 19729 ∧
    (calculateSessionBasedTime 19723 19729 2 ⟨[1, 2, 3, 4, 5], 8⟩).frequency = "Daily" ∧
    (calculateSessionBasedTime 19723 19729 2 ⟨[1, 2, 3, 4, 5], 8⟩).totalTime =
      2 * (countWorkDays [1, 2, 3, 4, 5] 19723 19729 : ℚ)) :=
  ⟨by norm_num, by norm_num, by decide,
    daily_plan_structure.1 19723 19729 2 ⟨[1, 2, 3, 4, 5], 8⟩
      (by norm_num) (by norm_num) (by decide)⟩

/-! ## C1: the feasibility gate -/

/-- C1: on a valid range with at least one work-day and positive session
duration, the feasibility gate is evaluated in order with first match
winning: a session duration above the daily cap is infeasible with a
warning naming the session duration and the daily cap; otherwise a total
time above `0.8 × workDaysInRange × dailyAvailableHours` is infeasible
with the capacity warning; otherwise the plan is feasible with no
warning. -/
theorem feasibility_gate (startDate endDate : ℤ) (s : ℚ) (u : UserSettings)
    (hr : 0 < endDate - startDate) (hs : 0 < s)
    (hn : countWorkDays u.workDays startDate endDate ≠ 0) :
    (s > u.dailyAvailableHours →
      calculateSessionBasedTime startDate endDate s u =
        ⟨s * (countWorkDays u.workDays startDate endDate : ℚ),
          countWorkDays u.workDays startDate endDate, "Daily", false,
          "Session duration (" ++ toFixed1 s ++ "h) exceeds daily capacity (" ++
            formatNum u.dailyAvailableHours ++ "h)"⟩) ∧
    (¬s > u.dailyAvailableHours →
      s * (countWorkDays u.workDays startDate endDate : ℚ) >
        (0.8 : ℚ) * (countWorkDays u.workDays startDate endDate : ℚ) *
          u.dailyAvailableHours →
      calculateSessionBasedTime startDate endDate s u =
        ⟨s * (countWorkDays u.workDays startDate endDate : ℚ),
          countWorkDays u.workDays startDate endDate, "Daily", false,
          "Total time (" ++
            toFixed1 (s * (countWorkDays u.workDays startDate endDate : ℚ)) ++
            "h) may exceed available capacity"⟩) ∧
    (¬s > u.dailyAvailableHours →
      ¬(s * (countWorkDays u.workDays startDate endDate : ℚ) >
        (0.8 : ℚ) * (countWorkDays u.workDays startDate endDate : ℚ) *
          u.dailyAvailableHours) →
      (calculateSessionBasedTime startDate endDate s u).feasible = true ∧
      (calculateSessionBasedTime startDate endDate s u).warning = "") := by
  have hconv : ((countWorkDays u.workDays startDate endDate : ℚ) *
      u.dailyAvailableHours) * (0.8 : ℚ) =
      (0.8 : ℚ) * (countWorkDays u.workDays startDate endDate : ℚ) *
        u.dailyAvailableHours := by ring
  rw [calculateSessionBasedTime, if_neg hr.not_le, if_neg hs.not_le, if_neg hn, hconv]
  refine ⟨fun h4 => ?_, fun h4 h5 => ?_, fun h4 h5 => ?_⟩
  · rw [if_pos h4]
  · rw [if_neg h4, if_pos h5]
  · rw [if_neg h4, if_neg h5]
    exact ⟨rfl, rfl⟩

/-- C1 witness: Scenario B — same range as Scenario A, session duration 10h
against a daily cap of 8h — hits the first gate: infeasible with the
warning naming both values (rendered `10.0` and `8`). -/
theorem feasibility_gate_witness :
    (0 : ℤ) < 19729 - 19723 ∧ (0 : ℚ) < 10 ∧
    countWorkDays [1, 2, 3, 4, 5] 19723 19729 ≠ 0 ∧ (10 : ℚ) > 8 ∧
    toFixed1 10 = "10.0" ∧ formatNum 8 = "8" ∧
    calculateSessionBasedTime 19723 19729 10 ⟨[1, 2, 3, 4, 5], 8⟩ =
      ⟨10 * (countWorkDays [1, 2, 3, 4, 5] 19723 19729 : ℚ),
        countWorkDays [1, 2, 3, 4, 5] 19723 19729, "Daily", false,
        "Session duration (" ++ toFixed1 10 ++ "h) exceeds daily capacity (" ++
          formatNum 8 ++ "h)"⟩ := by
  have hfl : ⌊(10 : ℚ) * 10 + 1 / 2⌋ = 100 := by
    rw [Int.floor_eq_iff]
    norm_num
  refine ⟨by norm_num, by norm_num, by decide, by norm_num, ?_, ?_, ?_⟩
  · rw [toFixed1, hfl]
    decide
  · rw [formatNum, if_pos (by norm_num : (8 : ℚ).den = 1),
      (by norm_num : (8 : ℚ).num = 8)]
    decide
  · exact (feasibility_gate 19723 19729 10 ⟨[1, 2, 3, 4, 5], 8⟩
      (by norm_num) (by norm_num) (by decide)).1 (by norm_num)

/-! ## C6: monotonicity and the feasibility flip point -/

/-- C6 counterexample: with 5 work-days and a daily cap of 8h, a session
duration of 7h has not yet crossed `dailyAvailableHours = 8`, yet the plan
is already infeasible (35h > 0.8 × 40h = 32h), while 6h is still feasible:
the flip does not happen at `dailyAvailableHours`. -/
theorem feasibility_flip_cex :
    (7 : ℚ) < 8 ∧
    (calculateSessionBasedTime 19723 19729 6 ⟨[1, 2, 3, 4, 5], 8⟩).feasible = true ∧
    (calculateSessionBasedTime 19723 19729 7 ⟨[1, 2, 3, 4, 5], 8⟩).feasible = false := by
  have hc : countWorkDays [1, 2, 3, 4, 5] 19723 19729 = 5 := by decide
  refine ⟨by norm_num, ?_, ?_⟩
  · rw [calculateSessionBasedTime, if_neg (by norm_num : ¬((19729 : ℤ) - 19723 ≤ 0)),
      if_neg (by norm_num : ¬((6 : ℚ) ≤ 0)), if_neg (by rw [hc]; norm_num),
      if_neg (by norm_num : ¬((6 : ℚ) > 8)), if_neg (by rw [hc]; norm_num)]
  · rw [calculateSessionBasedTime, if_neg (by norm_num : ¬((19729 : ℤ) - 19723 ≤ 0)),
      if_neg (by norm_num : ¬((7 : ℚ) ≤ 0)), if_neg (by rw [hc]; norm_num),
      if_neg (by norm_num : ¬((7 : ℚ) > 8)), if_pos (by rw [hc]; norm_num)]

/-- C6 amended (the flip happens at `0.8 × dailyAvailableHours`, not at
`dailyAvailableHours`): with range and capacity fixed, increasing the
session duration never decreases `totalTime`; and on a valid range with at
least one work-day and a positive daily cap, the plan is feasible exactly
when the session duration is at most `0.8 × dailyAvailableHours`, so the
feasible flag flips from true to false exactly once, there. -/
theorem totalTime_monotone_and_feasibility_flip :
    (∀ (startDate endDate : ℤ) (u : UserSettings) (s1 s2 : ℚ), s1 ≤ s2 →
      (calculateSessionBasedTime startDate endDate s1 u).totalTime ≤
        (calculateSessionBasedTime startDate endDate s2 u).totalTime) ∧
    (∀ (startDate endDate : ℤ) (u : UserSettings) (s : ℚ),
      0 < endDate - startDate → countWorkDays u.workDays startDate endDate ≠ 0 →
      0 < u.dailyAvailableHours →
      ((calculateSessionBasedTime startDate endDate s u).feasible = true ↔
        s ≤ (0.8 : ℚ) * u.dailyAvailableHours)) := by
  constructor
  · intro a b u s1 s2 h
    rw [totalTime_eval, totalTime_eval]
    by_cases hc1 : 0 < b - a ∧ 0 < s1 ∧ countWorkDays u.workDays a b ≠ 0
    · rw [if_pos hc1, if_pos ⟨hc1.1, lt_of_lt_of_le hc1.2.1 h, hc1.2.2⟩]
      exact mul_le_mul_of_nonneg_right h (Nat.cast_nonneg _)
    · rw [if_neg hc1]
      by_cases hc2 : 0 < b - a ∧ 0 < s2 ∧ countWorkDays u.workDays a b ≠ 0
      · rw [if_pos hc2]
        exact mul_nonneg hc2.2.1.le (Nat.cast_nonneg _)
      · rw [if_neg hc2]
  · intro a b u s hr hn hcap
    have hnpos : (0 : ℚ) < (countWorkDays u.workDays a b : ℚ) := by
      exact_mod_cast Nat.pos_of_ne_zero hn
    rw [calculateSessionBasedTime, if_neg hr.not_le]
    by_cases h2 : s ≤ 0
    · rw [if_pos h2]
      exact iff_of_true rfl (by nlinarith)
    · rw [if_neg h2, if_neg hn]
      by_cases h4 : s > u.dailyAvailableHours
      · rw [if_pos h4]
        refine iff_of_false (by simp) ?_
        intro hle
        nlinarith
      · rw [if_neg h4]
        by_cases h5 : s * (countWorkDays u.workDays a b : ℚ) >
            ((countWorkDays u.workDays a b : ℚ) * u.dailyAvailableHours) * (0.8 : ℚ)
        · rw [if_pos h5]
          refine iff_of_false (by simp) ?_
          intro hle
          have hmul := mul_le_mul_of_nonneg_right hle hnpos.le
          nlinarith
        · rw [if_neg h5]
          refine iff_of_true rfl ?_
          push_neg at h5
          by_contra hgt
          push_neg at hgt
          have hmul := mul_lt_mul_of_pos_right hgt hnpos
          nlinarith

/-- C6 witness: both parts at Scenario A's range — monotone totalTime for
2h ≤ 3h, and the flip characterisation at 5h against a daily cap of 8h. -/
theorem totalTime_monotone_and_feasibility_flip_witness :
    ((2 : ℚ) ≤ 3 ∧
      (calculateSessionBasedTime 19723 19729 2 ⟨[1, 2, 3, 4, 5], 8⟩).totalTime ≤
        (calculateSessionBasedTime 19723 19729 3 ⟨[1, 2, 3, 4, 5], 8⟩).totalTime) ∧
    ((0 : ℤ) < 19729 - 19723 ∧ countWorkDays [1, 2, 3, 4, 5] 19723 19729 ≠ 0 ∧
      (0 : ℚ) < 8 ∧
      ((calculateSessionBasedTime 19723 19729 5 ⟨[1, 2, 3, 4, 5], 8⟩).feasible = true ↔
        (5 : ℚ) ≤ (0.8 : ℚ) * 8)) :=
  ⟨⟨by norm_num,
      totalTime_monotone_and_feasibility_flip.1 19723 19729 ⟨[1, 2, 3, 4, 5], 8⟩ 2 3
        (by norm_num)⟩,
    ⟨by norm_num, by decide, by norm_num,
      totalTime_monotone_and_feasibility_flip.2 19723 19729 ⟨[1, 2, 3, 4, 5], 8⟩ 5
        (by norm_num) (by decide) (by norm_num)⟩⟩

/-! ## C9: warning/feasible invariant -/

/-- C9: on every branch of `calculateSessionBasedTime`, the plan is
feasible exactly when the warning is the empty string — every infeasible
plan carries a non-empty warning and every feasible plan an empty one. -/
theorem warning_iff_feasible (startDate endDate : ℤ) (s : ℚ) (u : UserSettings) :
    (calculateSessionBasedTime startDate endDate s u).feasible = true ↔
      (calculateSessionBasedTime startDate endDate s u).warning = "" := by
  have hsession : ∀ x y : String,
      ("Session duration (" ++ x ++ "h) exceeds daily capacity (" ++ y ++ "h)") ≠ "" := by
    intro x y
    exact append_left_ne_empty _ (append_left_ne_empty _
      (append_left_ne_empty _ (append_left_ne_empty _ (by decide))))
  have htotal : ∀ x : String,
      ("Total time (" ++ x ++ "h) may exceed available capacity") ≠ "" := by
    intro x
    exact append_left_ne_empty _ (append_left_ne_empty _ (by decide))
  rw [calculateSessionBasedTime]
  split_ifs
  · exact iff_of_false (by simp) (by decide)
  · exact iff_of_true rfl rfl
  · exact iff_of_false (by simp) (by decide)
  · exact iff_of_false (by simp) (hsession _ _)
  · exact iff_of_false (by simp) (htotal _)
  · exact iff_of_true rfl rfl

/-! ## C7: the urgency classifier -/

/-- C7: the urgency colour is exactly the rendering of the spec's ordered
tier table applied to `daysUntil = ceil((deadline − now) / 1 day)`, first
match winning; and the spec's examples hold: one day out is critical, five
days out is medium, thirty days out is low. -/
theorem urgency_refines_spec :
    (∀ deadlineMs nowMs : ℤ,
      getUrgencyColor deadlineMs nowMs =
        tierColor (classifyUrgencySpec
          ⌈((deadlineMs - nowMs : ℤ) : ℚ) / (1000 * 60 * 60 * 24)⌉)) ∧
    (∀ nowMs : ℤ,
      getUrgencyColor (nowMs + 86400000) nowMs = tierColor UrgencyTier.critical) ∧
    (∀ nowMs : ℤ,
      getUrgencyColor (nowMs + 5 * 86400000) nowMs = tierColor UrgencyTier.medium) ∧
    (∀ nowMs : ℤ,
      getUrgencyColor (nowMs + 30 * 86400000) nowMs = tierColor UrgencyTier.low) := by
  have hgen : ∀ deadlineMs nowMs : ℤ,
      getUrgencyColor deadlineMs nowMs =
        tierColor (classifyUrgencySpec
          ⌈((deadlineMs - nowMs : ℤ) : ℚ) / (1000 * 60 * 60 * 24)⌉) := by
    intro d n
    rw [getUrgencyColor, classifyUrgencySpec]
    split_ifs <;> rfl
  have hday : ∀ (n : ℤ) (k : ℕ),
      ((n + (k : ℤ) * 86400000 - n : ℤ) : ℚ) / (1000 * 60 * 60 * 24) = (k : ℚ) := by
    intro n k
    push_cast
    rw [div_eq_iff (by norm_num : (1000 * 60 * 60 * 24 : ℚ) ≠ 0)]
    ring
  refine ⟨hgen, fun n => ?_, fun n => ?_, fun n => ?_⟩
  · have h1 : ((n + 86400000 - n : ℤ) : ℚ) / (1000 * 60 * 60 * 24) = ((1 : ℕ) : ℚ) := by
      have := hday n 1
      push_cast at this ⊢
      linarith
    rw [hgen, h1, Int.ceil_natCast]
    rfl
  · have h5 : ((n + 5 * 86400000 - n : ℤ) : ℚ) / (1000 * 60 * 60 * 24) = ((5 : ℕ) : ℚ) := by
      have := hday n 5
      push_cast at this ⊢
      linarith
    rw [hgen, h5, Int.ceil_natCast]
    rfl
  · have h30 : ((n + 30 * 86400000 - n : ℤ) : ℚ) / (1000 * 60 * 60 * 24) = ((30 : ℕ) : ℚ) := by
      have := hday n 30
      push_cast at this ⊢
      linarith
    rw [hgen, h30, Int.ceil_natCast]
    rfl

/-! ## C10: overdue deadlines are critical -/

/-- C10: any deadline at or before `now` (so `daysUntil ≤ 0`, including
deadlines already in the past) falls into the `daysUntil ≤ 1` branch and is
classified critical; there is no distinguished overdue outcome. -/
theorem overdue_is_critical (deadlineMs nowMs : ℤ) (h : deadlineMs ≤ nowMs) :
    ⌈((deadlineMs - nowMs : ℤ) : ℚ) / (1000 * 60 * 60 * 24)⌉ ≤ 0 ∧
    getUrgencyColor deadlineMs nowMs = tierColor UrgencyTier.critical := by
  have hnum : ((deadlineMs - nowMs : ℤ) : ℚ) ≤ 0 := by
    exact_mod_cast sub_nonpos.mpr h
  have hceil : ⌈((deadlineMs - nowMs : ℤ) : ℚ) / (1000 * 60 * 60 * 24)⌉ ≤ 0 := by
    rw [Int.ceil_le, Int.cast_zero]
    exact div_nonpos_iff.mpr (Or.inr ⟨hnum, by norm_num⟩)
  refine ⟨hceil, ?_⟩
  rw [getUrgencyColor, if_pos (by omega : ⌈((deadlineMs - nowMs : ℤ) : ℚ) /
    (1000 * 60 * 60 * 24)⌉ ≤ 1)]
  rfl

/-- C10 witness: a deadline one full day in the past. -/
theorem overdue_is_critical_witness :
    (-86400000 : ℤ) ≤ 0 ∧
    (⌈((((-86400000 : ℤ)) - (0 : ℤ) : ℤ) : ℚ) / (1000 * 60 * 60 * 24)⌉ ≤ 0 ∧
      getUrgencyColor (-86400000) 0 = tierColor UrgencyTier.critical) :=
  ⟨by norm_num, overdue_is_critical (-86400000) 0 (by norm_num)⟩

/-! ## C8: conflict check is a no-op without a deadline -/

/-- C8: whenever the form's deadline is absent (or empty, which the source's
falsy test also catches) or the deadline type is `none`, the conflict check
returns `hasConflict = false` with no reason and no recommended frequency,
for every possible `calculateSessionDistribution` and every capacity
profile — in particular without consulting the capacity profile. -/
theorem no_deadline_no_conflict (dist : TaskForCheck → UserSettings → ConflictVerdict)
    (form : EditForm) (userSettings : UserSettings)
    (h : form.deadline = Option.none ∨ form.deadline = some "" ∨
      form.deadlineType = DeadlineType.noType) :
    deadlineConflict dist form userSettings = ⟨false, Option.none, Option.none⟩ := by
  rw [deadlineConflict, if_pos h]

/-- C8 witness: a form with no deadline, a distribution function that would
report a conflict if it were ever consulted, and a non-trivial capacity
profile. -/
theorem no_deadline_no_conflict_witness :
    ((EditForm.mk Option.none DeadlineType.hard 3 30 (some "2024-01-01")).deadline =
        Option.none ∨
      (EditForm.mk Option.none DeadlineType.hard 3 30 (some "2024-01-01")).deadline =
        some "" ∨
      (EditForm.mk Option.none DeadlineType.hard 3 30 (some "2024-01-01")).deadlineType =
        DeadlineType.noType) ∧
    deadlineConflict (fun _ _ => ⟨true, some "conflict", some "daily"⟩)
      (EditForm.mk Option.none DeadlineType.hard 3 30 (some "2024-01-01"))
      ⟨[1, 2, 3, 4, 5], 8⟩ =
      ⟨false, Option.none, Option.none⟩ :=
  ⟨Or.inl rfl,
    no_deadline_no_conflict (fun _ _ => ⟨true, some "conflict", some "daily"⟩)
      (EditForm.mk Option.none DeadlineType.hard 3 30 (some "2024-01-01"))
      ⟨[1, 2, 3, 4, 5], 8⟩ (Or.inl rfl)⟩

end TimeforLove
